import Mathlib

/-!
# Verification of the cn-holiday-sqlgen calendar generator

Shallow embedding of `src/main.py` (Mintimate/cn-holiday-sqlgen): a pipeline
that classifies every date of a target year into one of four configured type
codes via an external holiday oracle, and renders the result as SQL insert
statements and a CSV table.

The embedding models:
* Python `datetime.date` values as year/month/day triples (`PyDate`), with
  `datetime.date.__le__` as lexicographic comparison and
  `date + timedelta(days=1)` as the Gregorian-calendar successor;
* `date.strftime("%Y-%m-%d")` as zero-padded decimal formatting and
  `datetime.strptime(s, "%Y-%m-%d")` as greedy digit-run parsing followed by
  the constructor's range validation (`MINYEAR = 1`, `MAXYEAR = 9999`);
* the `chinese_calendar` library as an abstract `Oracle`
  (`is_holiday`, `is_workday`, `get_holiday_detail`);
* Python exceptions as `Except` values carrying the offending datum.
-/

namespace CnHoliday

/-- Gregorian leap-year rule (divisible by 4, not by 100 unless by 400),
as used by Python's `datetime`/`calendar` modules. -/
def isLeapYear (y : Nat) : Bool :=
  y % 4 == 0 && (y % 100 != 0 || y % 400 == 0)

/-- Number of days of month `m` (1-based) of year `y`; `0` for an
out-of-range month index. -/
def daysInMonth (y m : Nat) : Nat :=
  match m with
  | 1 => 31
  | 2 => if isLeapYear y then 29 else 28
  | 3 => 31
  | 4 => 30
  | 5 => 31
  | 6 => 30
  | 7 => 31
  | 8 => 31
  | 9 => 30
  | 10 => 31
  | 11 => 30
  | 12 => 31
  | _ => 0

/-- Number of days of year `y`. -/
def daysInYear (y : Nat) : Nat :=
  if isLeapYear y then 366 else 365

/-- Model of a Python `datetime.date` value: a year/month/day triple. -/
structure PyDate where
  year : Nat
  month : Nat
  day : Nat
deriving DecidableEq, Repr

/-- `datetime.date` order (`current <= end` in the enumeration loop):
Python compares the `(year, month, day)` tuples lexicographically. -/
def dateLe (a b : PyDate) : Bool :=
  a.year < b.year ||
    (a.year == b.year &&
      (a.month < b.month || (a.month == b.month && a.day ≤ b.day)))

/-- Strict `datetime.date` order. -/
def dateLt (a b : PyDate) : Bool :=
  a.year < b.year ||
    (a.year == b.year &&
      (a.month < b.month || (a.month == b.month && a.day < b.day)))

/-- `current + datetime.timedelta(days=1)`: the Gregorian successor of a
calendar date. -/
def addOneDay (c : PyDate) : PyDate :=
  if c.day < daysInMonth c.year c.month then
    ⟨c.year, c.month, c.day + 1⟩
  else if c.month < 12 then
    ⟨c.year, c.month + 1, 1⟩
  else
    ⟨c.year + 1, 1, 1⟩

/-- A valid calendar date of the Python-supported range
(`datetime.MINYEAR = 1`, `datetime.MAXYEAR = 9999`). -/
def validDate (c : PyDate) : Prop :=
  1 ≤ c.year ∧ c.year ≤ 9999 ∧ 1 ≤ c.month ∧ c.month ≤ 12 ∧
    1 ≤ c.day ∧ c.day ≤ daysInMonth c.year c.month

instance (c : PyDate) : Decidable (validDate c) := by
  unfold validDate; infer_instance

/-! ## Decimal formatting (Python `str(int)` and zero padding) -/

/-- Decimal digits of `n`, most significant first (the digits of Python's
`str(n)` for a nonnegative integer). -/
def natDigits (n : Nat) : List Char :=
  if n < 10 then [Char.ofNat (48 + n)]
  else natDigits (n / 10) ++ [Char.ofNat (48 + n % 10)]
decreasing_by omega

/-- Python `str(n)` for a nonnegative integer. -/
def natToString (n : Nat) : String :=
  String.mk (natDigits n)

/-- Decimal digits of `n` left-padded with `'0'` to width `w`
(the `%Y`/`%m`/`%d` fields of `strftime`). -/
def zfillDigits (w n : Nat) : List Char :=
  List.replicate (w - (natDigits n).length) '0' ++ natDigits n

/-- `date.strftime("%Y-%m-%d")`: zero-padded `YYYY-MM-DD`. -/
def formatDate (c : PyDate) : String :=
  String.mk (zfillDigits 4 c.year ++ '-' :: (zfillDigits 2 c.month ++ '-' :: zfillDigits 2 c.day))

/-! ## Parsing (`datetime.strptime(s, "%Y-%m-%d")`) -/

/-- ASCII decimal digit test. -/
def isDigitChar (c : Char) : Bool :=
  48 ≤ c.toNat && c.toNat ≤ 57

/-- Numeric value of an ASCII digit character. -/
def digitVal (c : Char) : Nat :=
  c.toNat - 48

/-- Value of a most-significant-first digit string. -/
def digitsToNat (ds : List Char) : Nat :=
  ds.foldl (fun a c => a * 10 + digitVal c) 0

/-- Greedily take at most `n` leading digit characters (the `\d{1,n}`
matching that `strptime`'s directive regex performs). -/
def takeDigits : Nat → List Char → List Char × List Char
  | 0, cs => ([], cs)
  | _ + 1, [] => ([], [])
  | n + 1, c :: cs =>
    if isDigitChar c then
      let (ds, r) := takeDigits n cs
      (c :: ds, r)
    else
      ([], c :: cs)

/-- `datetime.strptime(s, "%Y-%m-%d")` followed by `.date()`: `%Y` consumes
1–4 digits, each `-` is literal, `%m` and `%d` consume 1–2 digits, the whole
string must be consumed, and the date constructor validates the ranges
(`MINYEAR ≤ year ≤ MAXYEAR`, valid month, valid day).  Failure (Python
`ValueError`) is `none`. -/
def strptime_date (s : String) : Option PyDate :=
  let (yds, r1) := takeDigits 4 s.data
  if yds.isEmpty then none else
  match r1 with
  | '-' :: r2 =>
    let (mds, r3) := takeDigits 2 r2
    if mds.isEmpty then none else
    match r3 with
    | '-' :: r4 =>
      let (dds, r5) := takeDigits 2 r4
      if dds.isEmpty then none else
      if r5.isEmpty then
        let y := digitsToNat yds
        let m := digitsToNat mds
        let d := digitsToNat dds
        if 1 ≤ y ∧ y ≤ 9999 ∧ 1 ≤ m ∧ m ≤ 12 ∧ 1 ≤ d ∧ d ≤ daysInMonth y m then
          some ⟨y, m, d⟩
        else none
      else none
    | _ => none
  | _ => none

/-! ## Year enumeration (`CalendarGenerator.get_whole_year`) -/

/-- The `while current <= end` loop of `get_whole_year`: starting from
`current = c` with `end = date(y, 12, 31)`, append `current.strftime("%Y-%m-%d")`
and advance by one day. -/
def getWholeYearAux (y : Nat) (c : PyDate) : List String :=
  if dateLe c ⟨y, 12, 31⟩ then
    formatDate c :: getWholeYearAux y (addOneDay c)
  else []
termination_by (y + 1 - c.year) * 1000 + (13 - min c.month 13) * 40 + (40 - min c.day 40)
decreasing_by
  rename_i h
  simp only [dateLe, Bool.or_eq_true, Bool.and_eq_true, decide_eq_true_eq,
    beq_iff_eq] at h
  have h31 : daysInMonth c.year c.month ≤ 31 := by
    unfold daysInMonth
    split <;> first | omega | (split <;> omega)
  simp only [addOneDay]
  split
  · rename_i hlt
    simp only []
    omega
  · split
    · rename_i hge hm
      simp only []
      omega
    · rename_i hge hm
      simp only []
      omega

/-- `CalendarGenerator.get_whole_year(year)`: all dates of the year as
`YYYY-MM-DD` strings, from `date(year, 1, 1)` to `date(year, 12, 31)`. -/
def get_whole_year (year : Nat) : List String :=
  getWholeYearAux year ⟨year, 1, 1⟩

/-- The dates of month `m` of year `y` in order (specification-side
enumeration used to state what the loop produces). -/
def monthDates (y m : Nat) : List PyDate :=
  (List.range' 1 (daysInMonth y m)).map (fun d => ⟨y, m, d⟩)

/-- All dates of year `y` in calendar order (specification-side
enumeration). -/
def datesOfYear (y : Nat) : List PyDate :=
  (List.range' 1 12).flatMap (fun m => monthDates y m)

/-! ## Configuration (`Config`, `DateTypeConfig`), oracle and classifier -/

/-- One entry of the `date_types` mapping (`code` and `description`). -/
structure DateTypeConfig where
  code : String
  description : String
deriving DecidableEq, Repr

/-- The application configuration (`Config` dataclass): `table_name`,
`target_year`, `save_path` and the `date_types` mapping, the latter modelled
as an association list (a Python `dict`). -/
structure Config where
  table_name : String
  target_year : Nat
  save_path : String
  date_types : List (String × DateTypeConfig)
deriving DecidableEq, Repr

/-- The `chinese_calendar` library: the external holiday oracle.
`get_holiday_detail` returns `(on_holiday, holiday_name)`. -/
structure Oracle where
  is_holiday : PyDate → Bool
  is_workday : PyDate → Bool
  get_holiday_detail : PyDate → Bool × Option String

/-- Python exceptions of the pipeline, each carrying the offending datum:
`KeyError` (missing `date_types` key, raised in `DateTypeJudge.__init__`),
the `ValueError` of `strptime` (unparsable date string), and the
`ValueError` raised when the oracle reports neither holiday nor workday. -/
inductive GenError where
  | keyError (key : String)
  | parseError (dateStr : String)
  | valueError (dateStr : String)
deriving DecidableEq, Repr

/-- The four resolved codes held by a constructed `DateTypeJudge`. -/
structure DateTypeJudge where
  workday_code : String
  weekend_code : String
  holiday_code : String
  working_holiday_code : String
deriving DecidableEq, Repr

/-- `DateTypeJudge.__init__`: the four `config.date_types[...]['code']`
dictionary lookups, in source order; a missing key raises `KeyError(key)`. -/
def mkDateTypeJudge (config : Config) : Except GenError DateTypeJudge :=
  match config.date_types.lookup "workday" with
  | none => .error (.keyError "workday")
  | some w =>
    match config.date_types.lookup "weekend" with
    | none => .error (.keyError "weekend")
    | some we =>
      match config.date_types.lookup "holiday" with
      | none => .error (.keyError "holiday")
      | some h =>
        match config.date_types.lookup "working_holiday" with
        | none => .error (.keyError "working_holiday")
        | some wh =>
          .ok ⟨w.code, we.code, h.code, wh.code⟩

/-- `DateTypeJudge.judge_date_type(date_str)`: parse the date string, then
classify by priority — holiday with a name, un-named holiday (weekend),
workday with a named event (make-up workday), plain workday — and raise
`ValueError` when the oracle reports neither holiday nor workday. -/
def judge_date_type (j : DateTypeJudge) (o : Oracle) (date_str : String) :
    Except GenError (String × String) :=
  match strptime_date date_str with
  | none => .error (.parseError date_str)
  | some date =>
    if o.is_holiday date then
      match (o.get_holiday_detail date).2 with
      | some holiday_name => .ok (j.holiday_code, holiday_name)
      | none => .ok (j.weekend_code, "")
    else if o.is_workday date then
      match (o.get_holiday_detail date).2 with
      | some holiday_name => .ok (j.working_holiday_code, holiday_name)
      | none => .ok (j.workday_code, "")
    else
      .error (.valueError date_str)

/-! ## Renderers (`generate_sql`, the CSV export) and the generation run -/

/-- `re.sub(r"'", "''", remark)`: double every single quote, touch nothing
else. -/
def escapeQuotes (s : String) : String :=
  String.mk (s.data.flatMap (fun c => if c = '\'' then ['\'', '\''] else [c]))

/-- Number of single-quote characters of a string. -/
def countQuote (s : String) : Nat :=
  s.data.count '\''

/-- `CalendarGenerator.generate_sql`: one insert statement, built exactly as
the source's f-string concatenation, terminated by a newline. -/
def generate_sql (table_name : String) (year : Nat) (date : String)
    (date_type : String) (remark : String) : String :=
  let escaped_remark := escapeQuotes remark
  "INSERT INTO " ++ table_name ++ " VALUES (" ++
    "'" ++ natToString year ++ "', " ++
    "'" ++ date ++ "', " ++
    "'" ++ date_type ++ "', " ++
    "'" ++ escaped_remark ++ "'" ++
    ");\n"

/-- One row of the tabular (DataFrame) export:
`[YEAR, CALENDAR_DATE, DATE_TYPE, COMMENTS]`. -/
structure CsvRow where
  year : Nat
  calendar_date : String
  date_type : String
  comments : String
deriving DecidableEq, Repr

/-- One CSV field under the default `QUOTE_MINIMAL` rule of
`DataFrame.to_csv`: quoted (with inner double quotes doubled) only when the
field holds a separator, a quote or a line break. -/
def csvField (s : String) : String :=
  if s.data.any (fun c => c = ',' || c = '"' || c = '\n' || c = '\r') then
    "\"" ++ String.mk (s.data.flatMap (fun c => if c = '"' then ['"', '"'] else [c])) ++ "\""
  else s

/-- One data line of the CSV export. -/
def csvLine (r : CsvRow) : String :=
  csvField (natToString r.year) ++ "," ++ csvField r.calendar_date ++ "," ++
    csvField r.date_type ++ "," ++ csvField r.comments ++ "\n"

/-- `df.to_csv(..., index=False, encoding='utf-8-sig')`: byte-order mark,
header line, then one line per row in order. -/
def to_csv (rows : List CsvRow) : String :=
  "\uFEFF" ++ "YEAR,CALENDAR_DATE,DATE_TYPE,COMMENTS\n" ++
    String.join (rows.map csvLine)

/-- The contents of the two files `_save_files` writes
(`<year>Day.sql` and `<year>Day.csv`). -/
structure SavedFiles where
  sql_file : String
  csv_file : String
deriving DecidableEq, Repr

/-- `CalendarGenerator._save_files`: `f.writelines(sql_statements)` and
`df.to_csv(...)`. -/
def save_files (sql_statements : List String) (rows : List CsvRow) : SavedFiles :=
  ⟨String.join sql_statements, to_csv rows⟩

/-- The per-date loop of `CalendarGenerator.generate`: classify the date,
render its SQL statement, and append the same `(date, type, remark)` to both
containers; the first raised error aborts the loop. -/
def generateLoop (cfg : Config) (j : DateTypeJudge) (o : Oracle) :
    List String → Except GenError (List String × List CsvRow)
  | [] => .ok ([], [])
  | date_str :: rest =>
    match judge_date_type j o date_str with
    | .error e => .error e
    | .ok (date_type, remark) =>
      match generateLoop cfg j o rest with
      | .error e => .error e
      | .ok (sqls, rows) =>
        .ok (generate_sql cfg.table_name cfg.target_year date_str date_type remark :: sqls,
          ⟨cfg.target_year, date_str, date_type, remark⟩ :: rows)

/-- `CalendarGenerator.generate`: run the loop over the whole target year,
then (only on success) save both files. -/
def generate (cfg : Config) (j : DateTypeJudge) (o : Oracle) :
    Except GenError SavedFiles :=
  match generateLoop cfg j o (get_whole_year cfg.target_year) with
  | .error e => .error e
  | .ok (sqls, rows) => .ok (save_files sqls rows)

/-- The full pipeline of `main` after configuration loading: construct the
`DateTypeJudge` from the configuration (which validates the four
`date_types` keys), then generate. -/
def run_generator (cfg : Config) (o : Oracle) : Except GenError SavedFiles :=
  match mkDateTypeJudge cfg with
  | .error e => .error e
  | .ok j => generate cfg j o

/-- Whether an `Except` computation succeeded. -/
def exceptOk {ε α : Type} : Except ε α → Bool
  | .ok _ => true
  | .error _ => false

/-! ## Concrete fixtures used by witness theorems -/

/-- A concrete four-code judge. -/
def witJudge : DateTypeJudge :=
  ⟨"0", "1", "2", "3"⟩

/-- A concrete oracle: May 1 is a named holiday, April 28 a named make-up
workday, everything else a plain workday. -/
def witOracle : Oracle where
  is_holiday := fun d => decide (d.month = 5 ∧ d.day = 1)
  is_workday := fun d => !decide (d.month = 5 ∧ d.day = 1)
  get_holiday_detail := fun d =>
    if d.month = 5 ∧ d.day = 1 then (true, some "Labour Day")
    else if d.month = 4 ∧ d.day = 28 then (false, some "Labour Day")
    else (false, none)

/-- A second oracle written differently but giving the same answers as
`witOracle`. -/
def witOracle2 : Oracle where
  is_holiday := fun d => decide (d.month = 5 ∧ d.day = 1)
  is_workday := fun d => !decide (d.month = 5 ∧ d.day = 1)
  get_holiday_detail := fun d =>
    if d.month = 5 ∧ d.day = 1 then (true, some "Labour Day")
    else if d.month = 4 ∧ d.day = 28 then (false, some "Labour Day")
    else (false, none)

/-- An oracle that reports neither holiday nor workday for any date. -/
def witBrokenOracle : Oracle :=
  ⟨fun _ => false, fun _ => false, fun _ => (false, none)⟩

/-- A concrete full configuration. -/
def witConfig : Config :=
  ⟨"HOLIDAY_TABLE", 2024, "./output",
    [("workday", ⟨"0", "working day"⟩), ("weekend", ⟨"1", "weekend"⟩),
      ("holiday", ⟨"2", "holiday"⟩), ("working_holiday", ⟨"3", "make-up workday"⟩)]⟩

/-- A configuration whose `date_types` mapping is missing the `holiday`
key. -/
def witBadConfig : Config :=
  ⟨"HOLIDAY_TABLE", 2024, "./output",
    [("workday", ⟨"0", "working day"⟩), ("weekend", ⟨"1", "weekend"⟩),
      ("working_holiday", ⟨"3", "make-up workday"⟩)]⟩

/-! ## Theorems -/

theorem daysInMonth_le_31 (y m : Nat) : daysInMonth y m ≤ 31 := by
  unfold daysInMonth
  split <;> first | omega | (split <;> omega)

theorem daysInMonth_pos (y m : Nat) (h1 : 1 ≤ m) (h12 : m ≤ 12) :
    1 ≤ daysInMonth y m := by
  unfold daysInMonth
  split <;> first | omega | (split <;> omega) | (rename_i hs; interval_cases m <;> simp_all)

/-! ### Digit lemmas -/

theorem natDigits_ne_nil (n : Nat) : natDigits n ≠ [] := by
  unfold natDigits
  split <;> simp

theorem natDigits_all_digit (n : Nat) : ∀ c ∈ natDigits n, isDigitChar c = true := by
  induction n using Nat.strong_induction_on with
  | _ n ih =>
    unfold natDigits
    split
    · rename_i h
      interval_cases n <;> decide
    · rename_i h
      intro c hc
      rcases List.mem_append.mp hc with h1 | h2
      · exact ih (n / 10) (by omega) c h1
      · have h10 : n % 10 < 10 := Nat.mod_lt _ (by omega)
        simp only [List.mem_singleton] at h2
        subst h2
        interval_cases hmod : n % 10 <;> decide

theorem digitsToNat_append_singleton (ds : List Char) (c : Char) :
    digitsToNat (ds ++ [c]) = 10 * digitsToNat ds + digitVal c := by
  simp [digitsToNat, List.foldl_append]
  omega

theorem digitsToNat_natDigits (n : Nat) : digitsToNat (natDigits n) = n := by
  induction n using Nat.strong_induction_on with
  | _ n ih =>
    unfold natDigits
    split
    · rename_i h
      interval_cases n <;> decide
    · rename_i h
      rw [digitsToNat_append_singleton, ih (n / 10) (by omega)]
      have h10 : n % 10 < 10 := Nat.mod_lt _ (by omega)
      have hv : digitVal (Char.ofNat (48 + n % 10)) = n % 10 := by
        interval_cases hmod : n % 10 <;> decide
      rw [hv]
      omega

theorem natDigits_length_le (k n : Nat) (hk : 1 ≤ k) (h : n < 10 ^ k) :
    (natDigits n).length ≤ k := by
  induction k generalizing n with
  | zero => omega
  | succ k ih =>
    unfold natDigits
    split
    · simp
    · rename_i hn
      have hk1 : 1 ≤ k := by
        by_contra hc
        have : k = 0 := by omega
        subst this
        simp [pow_succ] at h
        omega
      have hdiv : n / 10 < 10 ^ k := by
        rw [Nat.div_lt_iff_lt_mul (by norm_num : (0 : ℕ) < 10)]
        calc n < 10 ^ (k + 1) := h
          _ = 10 ^ k * 10 := pow_succ 10 k
      have := ih (n / 10) hk1 hdiv
      simp [List.length_append]
      omega

theorem zfillDigits_all_digit (w n : Nat) :
    ∀ c ∈ zfillDigits w n, isDigitChar c = true := by
  intro c hc
  rcases List.mem_append.mp hc with h1 | h2
  · have := List.eq_of_mem_replicate h1
    subst this
    decide
  · exact natDigits_all_digit n c h2

theorem zfillDigits_length (w n : Nat) (h : (natDigits n).length ≤ w) :
    (zfillDigits w n).length = w := by
  simp [zfillDigits]
  omega

theorem zfillDigits_ne_nil (w n : Nat) : zfillDigits w n ≠ [] := by
  simp [zfillDigits, natDigits_ne_nil]

theorem digitsToNat_zfill (w n : Nat) : digitsToNat (zfillDigits w n) = n := by
  have hz : ∀ k : Nat, List.foldl (fun a c => a * 10 + digitVal c) 0
      (List.replicate k '0') = 0 := by
    intro k
    induction k with
    | zero => rfl
    | succ k ih => simpa [List.replicate_succ] using ih
  have : digitsToNat (zfillDigits w n) = digitsToNat (natDigits n) := by
    simp [digitsToNat, zfillDigits, List.foldl_append, hz]
  rw [this, digitsToNat_natDigits]

theorem takeDigits_exact (ds : List Char) (n : Nat) (r : List Char)
    (hlen : ds.length = n) (hd : ∀ c ∈ ds, isDigitChar c = true) :
    takeDigits n (ds ++ r) = (ds, r) := by
  induction ds generalizing n with
  | nil =>
    subst hlen
    simp [takeDigits]
  | cons c cs ih =>
    subst hlen
    have hrec := ih cs.length rfl (fun x hx => hd x (by simp [hx]))
    simp only [List.length_cons, List.cons_append, takeDigits]
    rw [if_pos (hd c (by simp))]
    simp only [List.append_eq] at hrec ⊢
    rw [hrec]

/-- Round trip: parsing a `strftime("%Y-%m-%d")` rendering of a valid date
recovers that date (the `strptime` branch of the classifier cannot fail on
enumerator output). -/
theorem strptime_format_roundtrip (c : PyDate) (h : validDate c) :
    strptime_date (formatDate c) = some c := by
  obtain ⟨h1, h2, h3, h4, h5, h6⟩ := h
  have h31 := daysInMonth_le_31 c.year c.month
  have hy : (natDigits c.year).length ≤ 4 :=
    natDigits_length_le 4 c.year (by omega) (by omega)
  have hm : (natDigits c.month).length ≤ 2 :=
    natDigits_length_le 2 c.month (by omega) (by omega)
  have hd : (natDigits c.day).length ≤ 2 :=
    natDigits_length_le 2 c.day (by omega) (by omega)
  have e1 : takeDigits 4 (zfillDigits 4 c.year ++
      '-' :: (zfillDigits 2 c.month ++ '-' :: zfillDigits 2 c.day)) =
      (zfillDigits 4 c.year,
        '-' :: (zfillDigits 2 c.month ++ '-' :: zfillDigits 2 c.day)) :=
    takeDigits_exact _ _ _ (zfillDigits_length _ _ hy) (zfillDigits_all_digit _ _)
  have e2 : takeDigits 2 (zfillDigits 2 c.month ++ '-' :: zfillDigits 2 c.day) =
      (zfillDigits 2 c.month, '-' :: zfillDigits 2 c.day) :=
    takeDigits_exact _ _ _ (zfillDigits_length _ _ hm) (zfillDigits_all_digit _ _)
  have e3 : takeDigits 2 (zfillDigits 2 c.day ++ []) =
      (zfillDigits 2 c.day, []) :=
    takeDigits_exact _ _ _ (zfillDigits_length _ _ hd) (zfillDigits_all_digit _ _)
  rw [List.append_nil] at e3
  simp only [strptime_date, formatDate, e1, e2, e3,
    List.isEmpty_eq_true, zfillDigits_ne_nil, if_false,
    digitsToNat_zfill]
  rw [if_pos (show 1 ≤ c.year ∧ c.year ≤ 9999 ∧ 1 ≤ c.month ∧ c.month ≤ 12 ∧
    1 ≤ c.day ∧ c.day ≤ daysInMonth c.year c.month from ⟨h1, h2, h3, h4, h5, h6⟩)]
  simp

theorem daysInMonth_feb (y : Nat) :
    daysInMonth y 2 = if isLeapYear y then 29 else 28 := rfl

theorem getWholeYearAux_stop (y : Nat) : getWholeYearAux y ⟨y + 1, 1, 1⟩ = [] := by
  rw [getWholeYearAux]
  simp [dateLe]

theorem getWholeYearAux_month (y m : Nat) (h1 : 1 ≤ m) (h2 : m ≤ 12) :
    ∀ n d, 1 ≤ d → d ≤ daysInMonth y m → d + n = daysInMonth y m + 1 →
    getWholeYearAux y ⟨y, m, d⟩ =
      ((List.range' d n).map (fun k => formatDate ⟨y, m, k⟩)) ++
        getWholeYearAux y (if m < 12 then ⟨y, m + 1, 1⟩ else ⟨y + 1, 1, 1⟩) := by
  intro n
  induction n with
  | zero =>
    intro d hd1 hd2 hsum
    omega
  | succ n ih =>
    intro d hd1 hd2 hsum
    have h31 := daysInMonth_le_31 y m
    have hguard : dateLe ⟨y, m, d⟩ ⟨y, 12, 31⟩ = true := by
      simp only [dateLe, Bool.or_eq_true, Bool.and_eq_true, decide_eq_true_eq,
        beq_iff_eq, true_and]
      omega
    rw [getWholeYearAux, if_pos hguard]
    by_cases hlast : d < daysInMonth y m
    · have haod : addOneDay ⟨y, m, d⟩ = ⟨y, m, d + 1⟩ := by
        simp [addOneDay, hlast]
      rw [haod, ih (d + 1) (by omega) (by omega) (by omega), List.range'_succ]
      simp
    · have hde : d = daysInMonth y m := by omega
      have hn0 : n = 0 := by omega
      have haod : addOneDay ⟨y, m, d⟩ =
          if m < 12 then (⟨y, m + 1, 1⟩ : PyDate) else ⟨y + 1, 1, 1⟩ := by
        simp only [addOneDay]
        rw [if_neg (by simp; omega)]
      subst hn0
      rw [haod, List.range'_succ]
      simp

theorem get_whole_year_eq_datesOfYear (y : Nat) :
    get_whole_year y = (datesOfYear y).map formatDate := by
  have hmo : ∀ m, 1 ≤ m → m ≤ 12 → getWholeYearAux y ⟨y, m, 1⟩ =
      ((List.range' 1 (daysInMonth y m)).map (fun k => formatDate ⟨y, m, k⟩)) ++
        getWholeYearAux y (if m < 12 then ⟨y, m + 1, 1⟩ else ⟨y + 1, 1, 1⟩) := by
    intro m hm1 hm2
    exact getWholeYearAux_month y m hm1 hm2 (daysInMonth y m) 1 le_rfl
      (daysInMonth_pos y m hm1 hm2) (by omega)
  have h12 : List.range' 1 12 = [1, 2, 3, 4, 5, 6, 7, 8, 9, 10, 11, 12] := by decide
  unfold get_whole_year
  rw [hmo 1 (by omega) (by omega)]
  rw [show ((if (1:Nat) < 12 then (⟨y, 1 + 1, 1⟩ : PyDate) else ⟨y + 1, 1, 1⟩)) =
    (⟨y, 2, 1⟩ : PyDate) by norm_num]
  rw [hmo 2 (by omega) (by omega)]
  rw [show ((if (2:Nat) < 12 then (⟨y, 2 + 1, 1⟩ : PyDate) else ⟨y + 1, 1, 1⟩)) =
    (⟨y, 3, 1⟩ : PyDate) by norm_num]
  rw [hmo 3 (by omega) (by omega)]
  rw [show ((if (3:Nat) < 12 then (⟨y, 3 + 1, 1⟩ : PyDate) else ⟨y + 1, 1, 1⟩)) =
    (⟨y, 4, 1⟩ : PyDate) by norm_num]
  rw [hmo 4 (by omega) (by omega)]
  rw [show ((if (4:Nat) < 12 then (⟨y, 4 + 1, 1⟩ : PyDate) else ⟨y + 1, 1, 1⟩)) =
    (⟨y, 5, 1⟩ : PyDate) by norm_num]
  rw [hmo 5 (by omega) (by omega)]
  rw [show ((if (5:Nat) < 12 then (⟨y, 5 + 1, 1⟩ : PyDate) else ⟨y + 1, 1, 1⟩)) =
    (⟨y, 6, 1⟩ : PyDate) by norm_num]
  rw [hmo 6 (by omega) (by omega)]
  rw [show ((if (6:Nat) < 12 then (⟨y, 6 + 1, 1⟩ : PyDate) else ⟨y + 1, 1, 1⟩)) =
    (⟨y, 7, 1⟩ : PyDate) by norm_num]
  rw [hmo 7 (by omega) (by omega)]
  rw [show ((if (7:Nat) < 12 then (⟨y, 7 + 1, 1⟩ : PyDate) else ⟨y + 1, 1, 1⟩)) =
    (⟨y, 8, 1⟩ : PyDate) by norm_num]
  rw [hmo 8 (by omega) (by omega)]
  rw [show ((if (8:Nat) < 12 then (⟨y, 8 + 1, 1⟩ : PyDate) else ⟨y + 1, 1, 1⟩)) =
    (⟨y, 9, 1⟩ : PyDate) by norm_num]
  rw [hmo 9 (by omega) (by omega)]
  rw [show ((if (9:Nat) < 12 then (⟨y, 9 + 1, 1⟩ : PyDate) else ⟨y + 1, 1, 1⟩)) =
    (⟨y, 10, 1⟩ : PyDate) by norm_num]
  rw [hmo 10 (by omega) (by omega)]
  rw [show ((if (10:Nat) < 12 then (⟨y, 10 + 1, 1⟩ : PyDate) else ⟨y + 1, 1, 1⟩)) =
    (⟨y, 11, 1⟩ : PyDate) by norm_num]
  rw [hmo 11 (by omega) (by omega)]
  rw [show ((if (11:Nat) < 12 then (⟨y, 11 + 1, 1⟩ : PyDate) else ⟨y + 1, 1, 1⟩)) =
    (⟨y, 12, 1⟩ : PyDate) by norm_num]
  rw [hmo 12 (by omega) (by omega)]
  rw [show ((if (12:Nat) < 12 then (⟨y, 12 + 1, 1⟩ : PyDate) else ⟨y + 1, 1, 1⟩)) =
    (⟨y + 1, 1, 1⟩ : PyDate) by norm_num]
  rw [getWholeYearAux_stop]
  simp [datesOfYear, h12, monthDates, List.map_map, Function.comp_def]

theorem datesOfYear_length (y : Nat) :
    (datesOfYear y).length = daysInYear y := by
  have h12 : List.range' 1 12 = [1, 2, 3, 4, 5, 6, 7, 8, 9, 10, 11, 12] := by decide
  have hm : ∀ m, (monthDates y m).length = daysInMonth y m := by
    intro m
    simp [monthDates]
  unfold datesOfYear
  rw [h12]
  simp only [List.flatMap_cons, List.flatMap_nil, List.append_nil,
    List.length_append, hm]
  rw [show daysInMonth y 1 = 31 from rfl, daysInMonth_feb,
    show daysInMonth y 3 = 31 from rfl, show daysInMonth y 4 = 30 from rfl,
    show daysInMonth y 5 = 31 from rfl, show daysInMonth y 6 = 30 from rfl,
    show daysInMonth y 7 = 31 from rfl, show daysInMonth y 8 = 31 from rfl,
    show daysInMonth y 9 = 30 from rfl, show daysInMonth y 10 = 31 from rfl,
    show daysInMonth y 11 = 30 from rfl, show daysInMonth y 12 = 31 from rfl]
  unfold daysInYear
  by_cases h : isLeapYear y <;> simp [h]

/-- Adjacent elements of `List.range' s n` (step 1) are consecutive, so any
relation holding on every in-range consecutive pair chains through it. -/
theorem chain'_range'_of (R : Nat → Nat → Prop) (s n : Nat)
    (h : ∀ k, s ≤ k → k + 1 < s + n → R k (k + 1)) :
    List.Chain' R (List.range' s n) := by
  cases n with
  | zero => simp
  | succ n =>
    rw [List.range'_eq_map_range, List.chain'_map, List.chain'_range_succ]
    intro m hm
    have h1 := h (s + m) (by omega) (by omega)
    show R (s + m) (s + Nat.succ m)
    have h2 : s + Nat.succ m = s + m + 1 := by omega
    rw [h2]
    exact h1

theorem monthDates_chain (y m : Nat) :
    List.Chain' (fun a b => b = addOneDay a ∧ dateLt a b = true) (monthDates y m) := by
  unfold monthDates
  rw [List.chain'_map]
  apply chain'_range'_of
  intro k hk1 hk2
  have hk : k < daysInMonth y m := by omega
  refine ⟨?_, ?_⟩
  · simp [addOneDay, hk]
  · simp [dateLt]

theorem monthDates_eq_cons (y m : Nat) (h : 1 ≤ m) (h2 : m ≤ 12) :
    ∃ rest, monthDates y m = ⟨y, m, 1⟩ :: rest := by
  have hpos := daysInMonth_pos y m h h2
  unfold monthDates
  cases hdim : daysInMonth y m with
  | zero => omega
  | succ n =>
    rw [List.range'_succ, List.map_cons]
    exact ⟨_, rfl⟩

theorem monthDates_head? (y m : Nat) (h : 1 ≤ m) (h2 : m ≤ 12) :
    (monthDates y m).head? = some ⟨y, m, 1⟩ := by
  obtain ⟨rest, hr⟩ := monthDates_eq_cons y m h h2
  rw [hr]
  rfl

theorem monthDates_getLast? (y m : Nat) (h : 1 ≤ m) (h2 : m ≤ 12) :
    (monthDates y m).getLast? = some ⟨y, m, daysInMonth y m⟩ := by
  have hpos := daysInMonth_pos y m h h2
  unfold monthDates
  cases hdim : daysInMonth y m with
  | zero => omega
  | succ n =>
    rw [List.range'_concat, List.map_append]
    simp only [List.map_cons, List.map_nil, List.getLast?_concat]
    have : 1 + 1 * n = n + 1 := by omega
    rw [this]

/-- Fold step: prepending a whole month to a chained tail whose head is the
first day of the following month keeps the list chained, with head the first
of the prepended month and the same last element. -/
theorem monthDates_chain_append (y m : Nat) (h1 : 1 ≤ m) (h2 : m < 12)
    (l : List PyDate) (w : PyDate)
    (hl : List.Chain' (fun a b => b = addOneDay a ∧ dateLt a b = true) l)
    (hhead : l.head? = some ⟨y, m + 1, 1⟩) (hlast : l.getLast? = some w) :
    List.Chain' (fun a b => b = addOneDay a ∧ dateLt a b = true) (monthDates y m ++ l) ∧
      (monthDates y m ++ l).head? = some ⟨y, m, 1⟩ ∧
      (monthDates y m ++ l).getLast? = some w := by
  have hne : l ≠ [] := by
    intro hnil
    rw [hnil] at hhead
    simp at hhead
  refine ⟨?_, ?_, ?_⟩
  · rw [List.chain'_append]
    refine ⟨monthDates_chain y m, hl, ?_⟩
    intro x hx z hz
    rw [monthDates_getLast? y m h1 (by omega)] at hx
    rw [hhead] at hz
    simp only [Option.mem_def, Option.some.injEq] at hx hz
    subst hx
    subst hz
    refine ⟨?_, ?_⟩
    · simp [addOneDay, h2]
    · simp [dateLt]
  · obtain ⟨rest, hr⟩ := monthDates_eq_cons y m h1 (by omega)
    rw [hr]
    rfl
  · rw [List.getLast?_append_of_ne_nil _ hne, hlast]

/-- The year enumeration is chained by the one-day successor (hence gap-free,
strictly ascending), starts at January 1 and ends at December 31. -/
theorem datesOfYear_chain (y : Nat) :
    List.Chain' (fun a b => b = addOneDay a ∧ dateLt a b = true) (datesOfYear y) ∧
      (datesOfYear y).head? = some ⟨y, 1, 1⟩ ∧
      (datesOfYear y).getLast? = some ⟨y, 12, 31⟩ := by
  have h12 : List.range' 1 12 = [1, 2, 3, 4, 5, 6, 7, 8, 9, 10, 11, 12] := by decide
  have base : List.Chain' (fun a b => b = addOneDay a ∧ dateLt a b = true) (monthDates y 12) ∧
      (monthDates y 12).head? = some ⟨y, 12, 1⟩ ∧
      (monthDates y 12).getLast? = some ⟨y, 12, 31⟩ := by
    refine ⟨monthDates_chain y 12, monthDates_head? y 12 (by omega) (by omega), ?_⟩
    rw [monthDates_getLast? y 12 (by omega) (by omega)]
    rfl
  have s11 := monthDates_chain_append y 11 (by omega) (by omega) _ _ base.1 base.2.1 base.2.2
  have s10 := monthDates_chain_append y 10 (by omega) (by omega) _ _ s11.1 s11.2.1 s11.2.2
  have s9 := monthDates_chain_append y 9 (by omega) (by omega) _ _ s10.1 s10.2.1 s10.2.2
  have s8 := monthDates_chain_append y 8 (by omega) (by omega) _ _ s9.1 s9.2.1 s9.2.2
  have s7 := monthDates_chain_append y 7 (by omega) (by omega) _ _ s8.1 s8.2.1 s8.2.2
  have s6 := monthDates_chain_append y 6 (by omega) (by omega) _ _ s7.1 s7.2.1 s7.2.2
  have s5 := monthDates_chain_append y 5 (by omega) (by omega) _ _ s6.1 s6.2.1 s6.2.2
  have s4 := monthDates_chain_append y 4 (by omega) (by omega) _ _ s5.1 s5.2.1 s5.2.2
  have s3 := monthDates_chain_append y 3 (by omega) (by omega) _ _ s4.1 s4.2.1 s4.2.2
  have s2 := monthDates_chain_append y 2 (by omega) (by omega) _ _ s3.1 s3.2.1 s3.2.2
  have s1 := monthDates_chain_append y 1 (by omega) (by omega) _ _ s2.1 s2.2.1 s2.2.2
  have hform : datesOfYear y =
      monthDates y 1 ++ (monthDates y 2 ++ (monthDates y 3 ++ (monthDates y 4 ++
        (monthDates y 5 ++ (monthDates y 6 ++ (monthDates y 7 ++ (monthDates y 8 ++
          (monthDates y 9 ++ (monthDates y 10 ++ (monthDates y 11 ++ monthDates y 12)))))))))) := by
    unfold datesOfYear
    rw [h12]
    simp
  rw [hform]
  exact s1

theorem dateLt_trans {a b c : PyDate} (h1 : dateLt a b = true) (h2 : dateLt b c = true) :
    dateLt a c = true := by
  simp only [dateLt, Bool.or_eq_true, Bool.and_eq_true, decide_eq_true_eq,
    beq_iff_eq] at h1 h2 ⊢
  omega

instance : IsTrans PyDate (fun a b => dateLt a b = true) :=
  ⟨fun _ _ _ => dateLt_trans⟩

theorem datesOfYear_pairwise (y : Nat) :
    List.Pairwise (fun a b => dateLt a b = true) (datesOfYear y) := by
  have hc := List.Chain'.imp (fun a b h => h.2) (datesOfYear_chain y).1
  exact List.chain'_iff_pairwise.mp hc

theorem datesOfYear_nodup (y : Nat) : (datesOfYear y).Nodup := by
  refine (datesOfYear_pairwise y).imp ?_
  intro a b hab
  intro heq
  subst heq
  simp only [dateLt, Bool.or_eq_true, Bool.and_eq_true, decide_eq_true_eq,
    beq_iff_eq] at hab
  omega

theorem mem_datesOfYear (y : Nat) (c : PyDate) :
    c ∈ datesOfYear y ↔
      c.year = y ∧ 1 ≤ c.month ∧ c.month ≤ 12 ∧ 1 ≤ c.day ∧ c.day ≤ daysInMonth y c.month := by
  unfold datesOfYear monthDates
  simp only [List.mem_flatMap, List.mem_map, List.mem_range'_1]
  constructor
  · rintro ⟨m, ⟨hm1, hm2⟩, d, ⟨hd1, hd2⟩, rfl⟩
    refine ⟨rfl, ?_, ?_, ?_, ?_⟩ <;> dsimp <;> omega
  · rintro ⟨hy, hm1, hm2, hd1, hd2⟩
    exact ⟨c.month, ⟨by omega, by omega⟩, c.day, ⟨by omega, by omega⟩, by rw [← hy]⟩

/-! ### SQL renderer -/

theorem string_data_append (a b : String) : (a ++ b).data = a.data ++ b.data := rfl

theorem countQuote_append (a b : String) :
    countQuote (a ++ b) = countQuote a + countQuote b := by
  simp [countQuote, string_data_append, List.count_append]

theorem count_flatMap_escape (l : List Char) :
    (l.flatMap (fun c => if c = '\'' then ['\'', '\''] else [c])).count '\'' =
      2 * l.count '\'' := by
  induction l with
  | nil => rfl
  | cons c cs ih =>
    simp only [List.flatMap_cons, List.count_append, ih, List.count_cons]
    by_cases hc : c = '\''
    · subst hc
      simp
      omega
    · rw [if_neg hc]
      have hcc : ¬('\'' = c) := fun h => hc h.symm
      simp [List.count_cons, hcc, hc]

theorem filter_flatMap_escape (l : List Char) :
    (l.flatMap (fun c => if c = '\'' then ['\'', '\''] else [c])).filter
        (fun c => c ≠ '\'') =
      l.filter (fun c => c ≠ '\'') := by
  induction l with
  | nil => rfl
  | cons c cs ih =>
    simp only [List.flatMap_cons, List.filter_append, ih, List.filter_cons]
    by_cases hc : c = '\''
    · subst hc
      simp
    · rw [if_neg hc]
      simp [hc]

theorem countQuote_escapeQuotes (s : String) :
    countQuote (escapeQuotes s) = 2 * countQuote s := by
  simpa [countQuote, escapeQuotes] using count_flatMap_escape s.data

theorem natToString_no_quote (n : Nat) : countQuote (natToString n) = 0 := by
  simp only [countQuote, natToString]
  rw [List.count_eq_zero]
  intro hmem
  have := natDigits_all_digit n _ hmem
  simp [isDigitChar] at this

/-- C3: `generate_sql` escapes every single quote of the remark by doubling
it and performs no other escaping (the non-quote characters pass through
unchanged), so a statement whose other substituted values are quote-free has
an even number of single-quote characters (balanced quote delimiters). -/
theorem generate_sql_escaping :
    (∀ remark : String, countQuote (escapeQuotes remark) = 2 * countQuote remark) ∧
    (∀ remark : String,
      (escapeQuotes remark).data.filter (fun c => c ≠ '\'') =
        remark.data.filter (fun c => c ≠ '\'')) ∧
    (∀ (table_name : String) (year : Nat) (date date_type remark : String),
      countQuote table_name = 0 → countQuote date = 0 → countQuote date_type = 0 →
      countQuote (generate_sql table_name year date date_type remark) % 2 = 0) := by
  refine ⟨countQuote_escapeQuotes, ?_, ?_⟩
  · intro remark
    simpa [escapeQuotes] using filter_flatMap_escape remark.data
  · intro table_name year date date_type remark ht hd hdt
    simp only [generate_sql, countQuote_append, ht, hd, hdt,
      natToString_no_quote, countQuote_escapeQuotes]
    have c1 : countQuote "INSERT INTO " = 0 := by decide
    have c2 : countQuote " VALUES (" = 0 := by decide
    have c3 : countQuote "'" = 1 := by decide
    have c4 : countQuote "', " = 1 := by decide
    have c5 : countQuote ");\n" = 0 := by decide
    rw [c1, c2, c3, c4, c5]
    omega

/-- C3 witness: a remark holding a single quote yields a statement with an
even number of quote characters. -/
theorem generate_sql_escaping_witness :
    countQuote (generate_sql "HOLIDAY_TABLE" 2024 "2024-05-01" "2"
      "International Workers' Day") % 2 = 0 :=
  generate_sql_escaping.2.2 "HOLIDAY_TABLE" 2024 "2024-05-01" "2"
    "International Workers' Day" (by decide) (by decide) (by decide)

/-- C8: each record renders to exactly one statement of the documented
`INSERT INTO <table> VALUES ('<year>', '<date>', '<type>', '<escaped remark>');`
form followed by a newline, the fields substituted verbatim. -/
theorem generate_sql_form (table_name : String) (year : Nat)
    (date date_type remark : String) :
    generate_sql table_name year date date_type remark =
      "INSERT INTO " ++ table_name ++ " VALUES ('" ++ natToString year ++
        "', '" ++ date ++ "', '" ++ date_type ++ "', '" ++
        escapeQuotes remark ++ "');\n" ∧
    ∃ stmt, generate_sql table_name year date date_type remark = stmt ++ "\n" := by
  constructor
  · rw [show (" VALUES ('" : String) = " VALUES (" ++ "'" from rfl,
      show ("', '" : String) = "', " ++ "'" from rfl,
      show ("');\n" : String) = "'" ++ ");\n" from rfl]
    simp [generate_sql, String.append_assoc]
  · refine ⟨"INSERT INTO " ++ table_name ++ " VALUES (" ++
      "'" ++ natToString year ++ "', " ++
      "'" ++ date ++ "', " ++
      "'" ++ date_type ++ "', " ++
      "'" ++ escapeQuotes remark ++ "'" ++ ");", ?_⟩
    simp [generate_sql, String.append_assoc]

/-! ### The enumerator claim -/

/-- C2: `get_whole_year` returns exactly the dates from January 1 through
December 31 of the year in calendar order (rendered `YYYY-MM-DD`): the
sequence is chained by the one-day successor (step one day, no gaps),
strictly ascending (no duplicates), contains every date of the year, and has
length 366 in a leap year (divisible by 4, not by 100 unless also by 400)
and 365 otherwise. -/
theorem get_whole_year_correct (y : Nat) :
    get_whole_year y = (datesOfYear y).map formatDate ∧
    (get_whole_year y).length = (if isLeapYear y then 366 else 365) ∧
    (isLeapYear y = true ↔ (y % 4 = 0 ∧ (y % 100 ≠ 0 ∨ y % 400 = 0))) ∧
    (datesOfYear y).head? = some ⟨y, 1, 1⟩ ∧
    (datesOfYear y).getLast? = some ⟨y, 12, 31⟩ ∧
    List.Chain' (fun a b => b = addOneDay a ∧ dateLt a b = true) (datesOfYear y) ∧
    List.Pairwise (fun a b => dateLt a b = true) (datesOfYear y) ∧
    (datesOfYear y).Nodup ∧
    (∀ c : PyDate, c ∈ datesOfYear y ↔
      c.year = y ∧ 1 ≤ c.month ∧ c.month ≤ 12 ∧ 1 ≤ c.day ∧
        c.day ≤ daysInMonth y c.month) := by
  refine ⟨get_whole_year_eq_datesOfYear y, ?_, ?_, (datesOfYear_chain y).2.1,
    (datesOfYear_chain y).2.2, (datesOfYear_chain y).1, datesOfYear_pairwise y,
    datesOfYear_nodup y, mem_datesOfYear y⟩
  · rw [get_whole_year_eq_datesOfYear, List.length_map, datesOfYear_length]
    rfl
  · simp [isLeapYear]

/-! ### Classifier claims -/

/-- C1: `judge_date_type` follows the exact priority order — a reported
holiday with a name classifies as the holiday code with the name as remark,
an un-named holiday as the weekend code with empty remark, a reported
workday with a named event as the make-up-workday code with the name as
remark, a plain workday as the workday code with empty remark — and a
non-empty remark occurs only with the holiday or make-up-workday code. -/
theorem judge_date_type_priority (j : DateTypeJudge) (o : Oracle) (s : String)
    (d : PyDate) (hp : strptime_date s = some d) :
    (o.is_holiday d = true →
      (∀ name, (o.get_holiday_detail d).2 = some name →
        judge_date_type j o s = .ok (j.holiday_code, name)) ∧
      ((o.get_holiday_detail d).2 = none →
        judge_date_type j o s = .ok (j.weekend_code, ""))) ∧
    (o.is_holiday d = false → o.is_workday d = true →
      (∀ name, (o.get_holiday_detail d).2 = some name →
        judge_date_type j o s = .ok (j.working_holiday_code, name)) ∧
      ((o.get_holiday_detail d).2 = none →
        judge_date_type j o s = .ok (j.workday_code, ""))) ∧
    (∀ code remark, judge_date_type j o s = .ok (code, remark) → remark ≠ "" →
      code = j.holiday_code ∨ code = j.working_holiday_code) := by
  unfold judge_date_type
  rw [hp]
  refine ⟨?_, ?_, ?_⟩
  · intro hh
    exact ⟨fun name hn => by simp [hh, hn], fun hn => by simp [hh, hn]⟩
  · intro hh hw
    exact ⟨fun name hn => by simp [hh, hw, hn], fun hn => by simp [hh, hw, hn]⟩
  · intro code remark hok hne
    by_cases hh : o.is_holiday d = true
    · cases hdet : (o.get_holiday_detail d).2 with
      | some name =>
        simp [hh, hdet] at hok
        exact Or.inl hok.1.symm
      | none =>
        simp [hh, hdet] at hok
        exact absurd hok.2.symm hne
    · by_cases hw : o.is_workday d = true
      · cases hdet : (o.get_holiday_detail d).2 with
        | some name =>
          simp [hh, hw, hdet] at hok
          exact Or.inr hok.1.symm
        | none =>
          simp [hh, hw, hdet] at hok
          exact absurd hok.2.symm hne
      · simp [hh, hw] at hok

/-- C1 witness: on the fixture oracle, May 1 2024 (a named holiday)
classifies as the holiday code with the holiday name as remark. -/
theorem judge_date_type_priority_witness :
    judge_date_type witJudge witOracle "2024-05-01" =
      .ok (witJudge.holiday_code, "Labour Day") :=
  ((judge_date_type_priority witJudge witOracle "2024-05-01" ⟨2024, 5, 1⟩
    (by decide)).1 (by decide)).1 "Labour Day" (by decide)

/-- C5: when the oracle reports a date as neither holiday nor workday,
`judge_date_type` fails with the `ValueError` that carries the offending
date string (no silent default), and any value it returns without failing
carries one of the four configured codes. -/
theorem judge_date_type_never_defaults (j : DateTypeJudge) (o : Oracle) (s : String) :
    (∀ d, strptime_date s = some d → o.is_holiday d = false →
      o.is_workday d = false →
      judge_date_type j o s = .error (.valueError s)) ∧
    (∀ code remark, judge_date_type j o s = .ok (code, remark) →
      code = j.workday_code ∨ code = j.weekend_code ∨ code = j.holiday_code ∨
        code = j.working_holiday_code) := by
  constructor
  · intro d hp hh hw
    unfold judge_date_type
    rw [hp]
    simp [hh, hw]
  · intro code remark hok
    unfold judge_date_type at hok
    cases hp : strptime_date s with
    | none => rw [hp] at hok; simp at hok
    | some d =>
      rw [hp] at hok
      by_cases hh : o.is_holiday d = true
      · cases hdet : (o.get_holiday_detail d).2 with
        | some name =>
          simp [hh, hdet] at hok
          exact Or.inr (Or.inr (Or.inl hok.1.symm))
        | none =>
          simp [hh, hdet] at hok
          exact Or.inr (Or.inl hok.1.symm)
      · by_cases hw : o.is_workday d = true
        · cases hdet : (o.get_holiday_detail d).2 with
          | some name =>
            simp [hh, hw, hdet] at hok
            exact Or.inr (Or.inr (Or.inr hok.1.symm))
          | none =>
            simp [hh, hw, hdet] at hok
            exact Or.inl hok.1.symm
        · simp [hh, hw] at hok

/-- C5 witness: an oracle answering neither holiday nor workday makes the
classifier fail with the `ValueError` carrying the date. -/
theorem judge_date_type_never_defaults_witness :
    judge_date_type witJudge witBrokenOracle "2024-01-01" =
      .error (.valueError "2024-01-01") :=
  (judge_date_type_never_defaults witJudge witBrokenOracle "2024-01-01").1
    ⟨2024, 1, 1⟩ (by decide) (by decide) (by decide)

/-! ### Generation run claims -/

/-- C4: when the per-date loop succeeds, the SQL statements and the tabular
rows are order- and content-aligned: statement `N` is rendered from row `N`'s
own year, date, type code and remark; the rows list the processed dates in
order; and every row carries the target year. -/
theorem generate_outputs_aligned (cfg : Config) (j : DateTypeJudge) (o : Oracle)
    (dates sqls : List String) (rows : List CsvRow)
    (h : generateLoop cfg j o dates = .ok (sqls, rows)) :
    sqls.length = rows.length ∧
    sqls = rows.map (fun r =>
      generate_sql cfg.table_name r.year r.calendar_date r.date_type r.comments) ∧
    rows.map (fun r => r.calendar_date) = dates ∧
    ∀ r ∈ rows, r.year = cfg.target_year := by
  induction dates generalizing sqls rows with
  | nil =>
    simp only [generateLoop, Except.ok.injEq, Prod.mk.injEq] at h
    obtain ⟨h1, h2⟩ := h
    subst h1
    subst h2
    simp
  | cons ds rest ih =>
    simp only [generateLoop] at h
    cases hj : judge_date_type j o ds with
    | error e => rw [hj] at h; simp at h
    | ok pr =>
      obtain ⟨dt, rm⟩ := pr
      rw [hj] at h
      cases hrec : generateLoop cfg j o rest with
      | error e => rw [hrec] at h; simp at h
      | ok pr2 =>
        obtain ⟨sq2, rows2⟩ := pr2
        rw [hrec] at h
        simp only [Except.ok.injEq, Prod.mk.injEq] at h
        obtain ⟨hs, hr⟩ := h
        subst hs
        subst hr
        obtain ⟨ih0, ih1, ih2, ih3⟩ := ih sq2 rows2 hrec
        refine ⟨by simp [ih0], ?_, ?_, ?_⟩
        · simp only [List.map_cons, ih1]
        · simp only [List.map_cons, ih2]
        · intro r hrm
          rcases List.mem_cons.mp hrm with h | h
          · subst h
            rfl
          · exact ih3 r h

/-- C4 witness: one classified date yields one SQL statement and one row
rendered from the same fields. -/
theorem generate_outputs_aligned_witness :
    ([generate_sql witConfig.table_name witConfig.target_year "2024-01-01" "0" ""]).length =
      ([(⟨witConfig.target_year, "2024-01-01", "0", ""⟩ : CsvRow)]).length ∧
    [generate_sql witConfig.table_name witConfig.target_year "2024-01-01" "0" ""] =
      ([(⟨witConfig.target_year, "2024-01-01", "0", ""⟩ : CsvRow)]).map (fun r =>
        generate_sql witConfig.table_name r.year r.calendar_date r.date_type r.comments) ∧
    ([(⟨witConfig.target_year, "2024-01-01", "0", ""⟩ : CsvRow)]).map
      (fun r => r.calendar_date) = ["2024-01-01"] ∧
    ∀ r ∈ [(⟨witConfig.target_year, "2024-01-01", "0", ""⟩ : CsvRow)],
      r.year = witConfig.target_year :=
  generate_outputs_aligned witConfig witJudge witOracle ["2024-01-01"] _ _ rfl

theorem generateLoop_isOk_iff (cfg : Config) (j : DateTypeJudge) (o : Oracle) :
    ∀ dates : List String,
      exceptOk (generateLoop cfg j o dates) =
        dates.all (fun s => exceptOk (judge_date_type j o s)) := by
  intro dates
  induction dates with
  | nil => rfl
  | cons ds rest ih =>
    simp only [generateLoop, List.all_cons]
    cases hj : judge_date_type j o ds with
    | error e => simp [exceptOk]
    | ok pr =>
      obtain ⟨dt, rm⟩ := pr
      cases hrec : generateLoop cfg j o rest with
      | error e =>
        rw [hrec] at ih
        simp only [exceptOk] at ih ⊢
        rw [← ih]
        simp [exceptOk]
      | ok pr2 =>
        obtain ⟨sq2, rows2⟩ := pr2
        rw [hrec] at ih
        simp only [exceptOk] at ih ⊢
        rw [← ih]
        simp [exceptOk]

theorem generateLoop_error_mem (cfg : Config) (j : DateTypeJudge) (o : Oracle) :
    ∀ (dates : List String) (e : GenError),
      generateLoop cfg j o dates = .error e →
      ∃ s ∈ dates, judge_date_type j o s = .error e := by
  intro dates
  induction dates with
  | nil =>
    intro e h
    simp [generateLoop] at h
  | cons ds rest ih =>
    intro e h
    simp only [generateLoop] at h
    cases hj : judge_date_type j o ds with
    | error e2 =>
      rw [hj] at h
      simp only [Except.error.injEq] at h
      subst h
      exact ⟨ds, by simp, hj⟩
    | ok pr =>
      obtain ⟨dt, rm⟩ := pr
      rw [hj] at h
      cases hrec : generateLoop cfg j o rest with
      | error e2 =>
        rw [hrec] at h
        simp only [Except.error.injEq] at h
        subst h
        obtain ⟨s, hs, hjs⟩ := ih e2 hrec
        exact ⟨s, by simp [hs], hjs⟩
      | ok pr2 =>
        rw [hrec] at h
        simp at h

/-- C6: the run produces its files only when every date of the target year
classifies successfully; when any classification fails the whole run aborts
with that error and no file contents are produced (`generate` yields no
`SavedFiles`), the failing date being one of the enumerated dates. -/
theorem generate_saves_only_if_all_classified (cfg : Config) (j : DateTypeJudge)
    (o : Oracle) :
    (exceptOk (generate cfg j o) =
      (get_whole_year cfg.target_year).all
        (fun s => exceptOk (judge_date_type j o s))) ∧
    (∀ e, generate cfg j o = .error e →
      ∃ s ∈ get_whole_year cfg.target_year, judge_date_type j o s = .error e) := by
  constructor
  · rw [← generateLoop_isOk_iff cfg j o (get_whole_year cfg.target_year)]
    unfold generate
    cases hl : generateLoop cfg j o (get_whole_year cfg.target_year) with
    | error e => rfl
    | ok pr => obtain ⟨sq, rws⟩ := pr; rfl
  · intro e he
    unfold generate at he
    cases hl : generateLoop cfg j o (get_whole_year cfg.target_year) with
    | error e2 =>
      rw [hl] at he
      simp only [Except.error.injEq] at he
      subst he
      exact generateLoop_error_mem cfg j o _ e2 hl
    | ok pr =>
      obtain ⟨sq, rws⟩ := pr
      rw [hl] at he
      simp at he

set_option maxRecDepth 8000 in
theorem formatDate_jan1_2024 : formatDate ⟨2024, 1, 1⟩ = "2024-01-01" := by
  simp [formatDate, zfillDigits, natDigits]

/-- The first step of the 2024 enumeration, by one unfolding of the loop. -/
theorem get_whole_year_2024_head :
    get_whole_year 2024 = "2024-01-01" :: getWholeYearAux 2024 ⟨2024, 1, 2⟩ := by
  rw [get_whole_year, getWholeYearAux]
  rw [if_pos (show dateLe ⟨2024, 1, 1⟩ ⟨2024, 12, 31⟩ = true from by decide)]
  rw [show addOneDay ⟨2024, 1, 1⟩ = ⟨2024, 1, 2⟩ from by decide]
  rw [formatDate_jan1_2024]

/-- A run whose first enumerated date fails classification aborts with that
error. -/
theorem generate_error_of_head (cfg : Config) (j : DateTypeJudge) (o : Oracle)
    (s : String) (rest : List String) (e : GenError)
    (hgw : get_whole_year cfg.target_year = s :: rest)
    (hj : judge_date_type j o s = .error e) :
    generate cfg j o = .error e := by
  unfold generate
  rw [hgw]
  simp only [generateLoop, hj]

/-- C6 witness: against an oracle that fails on the very first date of 2024,
the run aborts with that date's classification error. -/
theorem generate_saves_only_if_all_classified_witness :
    ∃ s ∈ get_whole_year witConfig.target_year,
      judge_date_type witJudge witBrokenOracle s =
        .error (.valueError "2024-01-01") := by
  apply (generate_saves_only_if_all_classified witConfig witJudge witBrokenOracle).2
  exact generate_error_of_head witConfig witJudge witBrokenOracle
    "2024-01-01" _ _ get_whole_year_2024_head
    (by
      unfold judge_date_type
      rw [show strptime_date "2024-01-01" = some ⟨2024, 1, 1⟩ from by decide]
      rfl)

theorem judge_date_type_congr (j : DateTypeJudge) (o1 o2 : Oracle) (s : String)
    (h : ∀ d, strptime_date s = some d →
      o1.is_holiday d = o2.is_holiday d ∧ o1.is_workday d = o2.is_workday d ∧
        o1.get_holiday_detail d = o2.get_holiday_detail d) :
    judge_date_type j o1 s = judge_date_type j o2 s := by
  unfold judge_date_type
  cases hp : strptime_date s with
  | none => rfl
  | some d =>
    obtain ⟨h1, h2, h3⟩ := h d hp
    dsimp only
    rw [h1, h2, h3]

theorem generateLoop_congr (cfg : Config) (j : DateTypeJudge) (o1 o2 : Oracle) :
    ∀ dates : List String,
      (∀ s ∈ dates, judge_date_type j o1 s = judge_date_type j o2 s) →
      generateLoop cfg j o1 dates = generateLoop cfg j o2 dates := by
  intro dates
  induction dates with
  | nil => intro _; rfl
  | cons ds rest ih =>
    intro hag
    simp only [generateLoop]
    rw [hag ds (by simp), ih (fun s hs => hag s (by simp [hs]))]

/-- C9: generation is deterministic — the output depends only on the year,
the configuration and the oracle's answers: two oracles answering alike on
every parsed date of the target year produce identical `SavedFiles`
(byte-identical SQL and CSV contents). -/
theorem run_generator_deterministic (cfg : Config) (o1 o2 : Oracle)
    (hagree : ∀ s ∈ get_whole_year cfg.target_year, ∀ d,
      strptime_date s = some d →
      o1.is_holiday d = o2.is_holiday d ∧ o1.is_workday d = o2.is_workday d ∧
        o1.get_holiday_detail d = o2.get_holiday_detail d) :
    run_generator cfg o1 = run_generator cfg o2 := by
  unfold run_generator
  cases mkDateTypeJudge cfg with
  | error e => rfl
  | ok j =>
    dsimp only
    unfold generate
    rw [generateLoop_congr cfg j o1 o2 (get_whole_year cfg.target_year)
      (fun s hs => judge_date_type_congr j o1 o2 s (fun d hd => hagree s hs d hd))]

/-- C9 witness: two syntactically distinct oracles with the same answers give
the same run output. -/
theorem run_generator_deterministic_witness :
    run_generator witConfig witOracle = run_generator witConfig witOracle2 :=
  run_generator_deterministic witConfig witOracle witOracle2
    (fun _ _ _ _ => ⟨rfl, rfl, rfl⟩)

/-- C7: a configuration whose `date_types` mapping is missing any of the four
required keys makes the pipeline abort with the `KeyError` naming a missing
key, for every oracle alike — i.e. before any date is classified. -/
theorem missing_key_aborts (cfg : Config) (k : String)
    (hk : k ∈ (["workday", "weekend", "holiday", "working_holiday"] : List String))
    (hmiss : cfg.date_types.lookup k = none) :
    ∃ k2, k2 ∈ (["workday", "weekend", "holiday", "working_holiday"] : List String) ∧
      cfg.date_types.lookup k2 = none ∧
      ∀ o : Oracle, run_generator cfg o = .error (.keyError k2) := by
  cases hw : cfg.date_types.lookup "workday" with
  | none =>
    exact ⟨"workday", by simp, hw, fun o => by
      simp [run_generator, mkDateTypeJudge, hw]⟩
  | some w =>
    cases hwe : cfg.date_types.lookup "weekend" with
    | none =>
      exact ⟨"weekend", by simp, hwe, fun o => by
        simp [run_generator, mkDateTypeJudge, hw, hwe]⟩
    | some we =>
      cases hh : cfg.date_types.lookup "holiday" with
      | none =>
        exact ⟨"holiday", by simp, hh, fun o => by
          simp [run_generator, mkDateTypeJudge, hw, hwe, hh]⟩
      | some hcode =>
        cases hwh : cfg.date_types.lookup "working_holiday" with
        | none =>
          exact ⟨"working_holiday", by simp, hwh, fun o => by
            simp [run_generator, mkDateTypeJudge, hw, hwe, hh, hwh]⟩
        | some wh =>
          exfalso
          simp only [List.mem_cons, List.mem_singleton] at hk
          rcases hk with rfl | rfl | rfl | h
          · rw [hw] at hmiss; exact Option.noConfusion hmiss
          · rw [hwe] at hmiss; exact Option.noConfusion hmiss
          · rw [hh] at hmiss; exact Option.noConfusion hmiss
          · rcases h with rfl | h
            · rw [hwh] at hmiss; exact Option.noConfusion hmiss
            · simp at h

/-- C7 witness: the fixture configuration missing the `holiday` key aborts
with a `KeyError` naming a missing key, whatever the oracle. -/
theorem missing_key_aborts_witness :
    ∃ k2, k2 ∈ (["workday", "weekend", "holiday", "working_holiday"] : List String) ∧
      witBadConfig.date_types.lookup k2 = none ∧
      ∀ o : Oracle, run_generator witBadConfig o = .error (.keyError k2) :=
  missing_key_aborts witBadConfig "holiday" (by decide) (by decide)

/-- C10: the classifier's parse-failure branch is unreachable on enumerator
output — every string `get_whole_year` produces for a year of the supported
calendar range parses back to the very date it was formatted from. -/
theorem enumerator_strings_always_parse (y : Nat) (h1 : 1 ≤ y) (h9 : y ≤ 9999) :
    ∀ s ∈ get_whole_year y, ∃ d : PyDate, strptime_date s = some d ∧
      validDate d ∧ formatDate d = s ∧ (strptime_date s).isSome = true := by
  intro s hs
  rw [get_whole_year_eq_datesOfYear] at hs
  obtain ⟨c, hc, rfl⟩ := List.mem_map.mp hs
  obtain ⟨hy, hm1, hm2, hd1, hd2⟩ := (mem_datesOfYear y c).mp hc
  have hv : validDate c := by
    refine ⟨by omega, by omega, hm1, hm2, hd1, ?_⟩
    rw [hy]
    exact hd2
  exact ⟨c, strptime_format_roundtrip c hv, hv, rfl, by
    rw [strptime_format_roundtrip c hv]; rfl⟩

/-- C10 witness: the first enumerated string of 2024 parses back to
January 1, 2024. -/
theorem enumerator_strings_always_parse_witness :
    ∃ d : PyDate, strptime_date "2024-01-01" = some d ∧ validDate d ∧
      formatDate d = "2024-01-01" ∧ (strptime_date "2024-01-01").isSome = true :=
  enumerator_strings_always_parse 2024 (by decide) (by decide) "2024-01-01"
    (by rw [get_whole_year_2024_head]; exact List.mem_cons_self _ _)

end CnHoliday
